import Mathlib

/-!
Shallow embedding of the request-forwarding core of the single-hop HTTP
reverse proxy in src/src/main.rs: the proxy_handler function, the header
merge it performs on upstream responses, and the startup port resolution
from main.

Header names are modelled as lowercase strings, mirroring the HeaderName
normalisation done by the HTTP framework; a header collection is an ordered
list of name/value pairs with duplicates preserved. Bodies are modelled as
strings. The outbound HTTP exchange is modelled by an oracle of type
OutboundCall -> UpstreamOutcome passed to the handler; a body-read failure
after headers arrived is an upstream response whose body field is none.
The handler result records the produced response, the list of outbound
calls issued, and the log lines printed.
-/

structure InboundRequest where
  method : String
  tail : String
  headers : List (String × String)
  body : String
deriving DecidableEq

structure UpstreamResponse where
  status : Nat
  headers : List (String × String)
  body : Option String
deriving DecidableEq

inductive UpstreamOutcome where
  | ok : UpstreamResponse → UpstreamOutcome
  | err : String → UpstreamOutcome
deriving DecidableEq

structure OutboundCall where
  method : String
  url : String
  headers : List (String × String)
  body : String
deriving DecidableEq

structure HttpResponse where
  status : Nat
  headers : List (String × String)
  body : String
deriving DecidableEq

structure HandlerResult where
  response : HttpResponse
  calls : List OutboundCall
  logs : List String
deriving DecidableEq

/-- actix insert_header: replace every header with the same name, then add
the new pair (main.rs lines 83-97 use this for CORS and upstream headers). -/
def insert_header (hs : List (String × String)) (h : String × String) :
    List (String × String) :=
  hs.filter (fun p => p.1 != h.1) ++ [h]

/-- actix append_header: add the pair without removing anything
(main.rs lines 58-66, the preflight branch). -/
def append_header (hs : List (String × String)) (h : String × String) :
    List (String × String) :=
  hs ++ [h]

def cors_allow_origin : String × String :=
  ("access-control-allow-origin", "*")

def cors_allow_methods : String × String :=
  ("access-control-allow-methods", "POST, GET, OPTIONS, PUT, DELETE")

def cors_allow_headers : String × String :=
  ("access-control-allow-headers", "Content-Type, Authorization, Range")

def corsHeaders : List (String × String) :=
  [cors_allow_origin, cors_allow_methods, cors_allow_headers]

/-- Root-probe response (main.rs lines 49-53). -/
def root_response : HttpResponse :=
  { status := 200
    headers := [("content-type", "text/plain")]
    body := "Netty server deployed by Mujahid in Rust" }

/-- Preflight response (main.rs lines 56-67): 200 with the three CORS
headers appended in order and an empty body. -/
def preflight_response : HttpResponse :=
  { status := 200
    headers :=
      append_header (append_header (append_header [] cors_allow_origin)
        cors_allow_methods) cors_allow_headers
    body := "" }

/-- The outbound request built at main.rs lines 71-74: same method, url
formed by format of the gateway url, a slash and the tail, and the inbound
headers converted verbatim. The builder never attaches a body (the body
Payload parameter of proxy_handler is unused), so the outbound body is
empty. -/
def outbound_call (api_gateway_url : String) (req : InboundRequest) :
    OutboundCall :=
  { method := req.method
    url := api_gateway_url ++ "/" ++ req.tail
    headers := req.headers
    body := "" }

/-- The header set the success branch starts from: the three CORS headers
inserted into an empty response (main.rs lines 83-92). -/
def cors_seed : List (String × String) :=
  insert_header (insert_header (insert_header [] cors_allow_origin)
    cors_allow_methods) cors_allow_headers

/-- Header set of the relayed response: the CORS seed, then every upstream
header inserted in order (main.rs lines 95-97), each insert replacing any
earlier pair of the same name. -/
def merge_headers (upstreamHeaders : List (String × String)) :
    List (String × String) :=
  upstreamHeaders.foldl insert_header cors_seed

/-- Success branch of the match (main.rs lines 79-102): upstream status
verbatim, merged headers, and the upstream body with unwrap_or_default
turning a failed body read into an empty body. -/
def success_response (resp : UpstreamResponse) : HttpResponse :=
  { status := resp.status
    headers := merge_headers resp.headers
    body := resp.body.getD "" }

/-- Error branch of the match (main.rs lines 103-106). -/
def service_unavailable_response : HttpResponse :=
  { status := 503
    headers := []
    body := "Service unavailable" }

/-- The proxy_handler function (main.rs lines 37-109), with the outbound
exchange abstracted as an oracle. -/
def proxy_handler (api_gateway_url : String) (req : InboundRequest)
    (upstream : OutboundCall → UpstreamOutcome) : HandlerResult :=
  let received_log :=
    "Received " ++ req.method ++ " request for " ++ req.tail
  if req.tail = "" then
    { response := root_response, calls := [], logs := [received_log] }
  else if req.method = "OPTIONS" then
    { response := preflight_response, calls := [], logs := [received_log] }
  else
    let call := outbound_call api_gateway_url req
    match upstream call with
    | UpstreamOutcome.ok resp =>
        { response := success_response resp, calls := [call],
          logs := [received_log] }
    | UpstreamOutcome.err e =>
        { response := service_unavailable_response, calls := [call],
          logs := [received_log, "Error forwarding request: " ++ e] }

/-- Listen-port resolution (main.rs lines 17-19): PORT, else SERVER_PORT,
else the hard default 8080. -/
def resolve_port (port server_port : Option String) : String :=
  (port.or server_port).getD "8080"

def headerNames (hs : List (String × String)) : List String :=
  hs.map Prod.fst

/-- Number of pairs in a header collection carrying the given name. -/
def countName : List (String × String) → String → Nat
  | [], _ => 0
  | p :: t, n => (if p.1 = n then 1 else 0) + countName t n

/-- Value of the last pair carrying the given name, if any. -/
def lastValue : List (String × String) → String → Option String
  | [], _ => none
  | p :: t, n => (lastValue t n).or (if p.1 = n then some p.2 else none)

/-- Concrete requests and oracles used to instantiate the theorems. -/
def req_post : InboundRequest :=
  { method := "POST", tail := "api/login",
    headers := [("content-type", "application/json")],
    body := "username=mujju" }

def req_get : InboundRequest :=
  { method := "GET", tail := "movies/1",
    headers := [("accept", "text/html")], body := "" }

def req_preflight : InboundRequest :=
  { method := "OPTIONS", tail := "api/login", headers := [], body := "" }

def req_root_options : InboundRequest :=
  { method := "OPTIONS", tail := "", headers := [], body := "" }

def req_root : InboundRequest :=
  { method := "GET", tail := "", headers := [], body := "" }

def upstream_down : OutboundCall → UpstreamOutcome :=
  fun _ => UpstreamOutcome.err "connection refused"

def sample_upstream_headers : List (String × String) :=
  [("content-type", "application/json"),
   ("access-control-allow-origin", "https://app.example")]

def upstream_ok_sample : OutboundCall → UpstreamOutcome :=
  fun _ => UpstreamOutcome.ok
    { status := 201
      headers := sample_upstream_headers
      body := some "payload" }

def upstream_ok_nobody : OutboundCall → UpstreamOutcome :=
  fun _ => UpstreamOutcome.ok
    { status := 502, headers := [("x-upstream", "b")], body := none }

/-- Helper: Option.or with none on the right is the identity. -/
theorem opt_or_none (o : Option String) : o.or none = o := by
  cases o <;> rfl

/-- Helper: Option.or is associative. -/
theorem opt_or_assoc (a b c : Option String) :
    (a.or b).or c = a.or (b.or c) := by
  cases a <;> rfl

/-- C1: the claim says the outbound call carries the inbound method, the
inbound headers verbatim, and the inbound body unmodified. On a concrete
POST whose inbound body is non-empty, the outbound call built by the code
carries the method and headers but an empty body: the body is dropped. -/
theorem c1_outbound_drops_body :
    (outbound_call "http://gw" req_post).method = req_post.method ∧
    (outbound_call "http://gw" req_post).headers = req_post.headers ∧
    (outbound_call "http://gw" req_post).body = "" ∧
    ¬ req_post.body = "" := by
  refine ⟨rfl, rfl, rfl, ?_⟩
  decide

/-- C3: for every inbound request with empty forwarding tail, whatever the
method and the upstream oracle, the handler returns 200 with the fixed
identification body and issues no outbound call. -/
theorem c3_root_probe (g : String) (req : InboundRequest)
    (upstream : OutboundCall → UpstreamOutcome) (ht : req.tail = "") :
    (proxy_handler g req upstream).response.status = 200 ∧
    (proxy_handler g req upstream).response.body =
      "Netty server deployed by Mujahid in Rust" ∧
    (proxy_handler g req upstream).calls = [] := by
  refine ⟨?_, ?_, ?_⟩ <;> simp [proxy_handler, ht, root_response]

/-- Witness for c3_root_probe at an OPTIONS request with empty tail. -/
theorem c3_root_probe_witness :
    req_root.tail = "" ∧
    ((proxy_handler "http://gw" req_root upstream_down).response.status = 200 ∧
     (proxy_handler "http://gw" req_root upstream_down).response.body =
       "Netty server deployed by Mujahid in Rust" ∧
     (proxy_handler "http://gw" req_root upstream_down).calls = []) :=
  ⟨rfl, c3_root_probe "http://gw" req_root upstream_down rfl⟩

/-- C4 counterexample: an OPTIONS request with empty tail hits the root
branch first, so its body is the identification text, not empty, refuting
the claim at this input. -/
theorem c4_preflight_counterexample :
    (proxy_handler "http://gw" req_root_options upstream_down).response.body =
      "Netty server deployed by Mujahid in Rust" ∧
    ¬ (proxy_handler "http://gw" req_root_options
        upstream_down).response.body = "" := by
  refine ⟨?_, ?_⟩ <;> decide

/-- C4 amended: for every inbound OPTIONS request with non-empty tail, the
handler returns 200 with an empty body and exactly the three CORS headers,
and issues no outbound call. -/
theorem c4_preflight (g : String) (req : InboundRequest)
    (upstream : OutboundCall → UpstreamOutcome)
    (hm : req.method = "OPTIONS") (ht : ¬ req.tail = "") :
    (proxy_handler g req upstream).response.status = 200 ∧
    (proxy_handler g req upstream).response.body = "" ∧
    (proxy_handler g req upstream).response.headers =
      [("access-control-allow-origin", "*"),
       ("access-control-allow-methods", "POST, GET, OPTIONS, PUT, DELETE"),
       ("access-control-allow-headers", "Content-Type, Authorization, Range")] ∧
    (proxy_handler g req upstream).calls = [] := by
  refine ⟨?_, ?_, ?_, ?_⟩ <;>
    simp [proxy_handler, ht, hm, preflight_response, append_header,
      cors_allow_origin, cors_allow_methods, cors_allow_headers]

/-- Witness for c4_preflight at a concrete preflight request. -/
theorem c4_preflight_witness :
    (req_preflight.method = "OPTIONS" ∧ ¬ req_preflight.tail = "") ∧
    ((proxy_handler "http://gw" req_preflight upstream_down).response.status
        = 200 ∧
     (proxy_handler "http://gw" req_preflight upstream_down).response.body
        = "" ∧
     (proxy_handler "http://gw" req_preflight upstream_down).response.headers =
      [("access-control-allow-origin", "*"),
       ("access-control-allow-methods", "POST, GET, OPTIONS, PUT, DELETE"),
       ("access-control-allow-headers", "Content-Type, Authorization, Range")] ∧
     (proxy_handler "http://gw" req_preflight upstream_down).calls = []) :=
  ⟨⟨rfl, by decide⟩,
    c4_preflight "http://gw" req_preflight upstream_down rfl (by decide)⟩

/-- C5: for every forwarded request whose outbound call fails at the
transport level, the handler returns 503 with the fixed non-empty body
and logs the error line; being a total function it always yields exactly
one response. -/
theorem c5_transport_failure (g : String) (req : InboundRequest)
    (upstream : OutboundCall → UpstreamOutcome) (e : String)
    (hm : ¬ req.method = "OPTIONS") (ht : ¬ req.tail = "")
    (hu : upstream (outbound_call g req) = UpstreamOutcome.err e) :
    (proxy_handler g req upstream).response.status = 503 ∧
    (proxy_handler g req upstream).response.body = "Service unavailable" ∧
    ¬ (proxy_handler g req upstream).response.body = "" ∧
    ("Error forwarding request: " ++ e) ∈ (proxy_handler g req upstream).logs := by
  refine ⟨?_, ?_, ?_, ?_⟩ <;>
    simp [proxy_handler, ht, hm, hu, service_unavailable_response]

/-- Witness for c5_transport_failure at a concrete GET with the upstream
down. -/
theorem c5_transport_failure_witness :
    (¬ req_get.method = "OPTIONS" ∧ ¬ req_get.tail = "" ∧
     upstream_down (outbound_call "http://gw" req_get) =
       UpstreamOutcome.err "connection refused") ∧
    ((proxy_handler "http://gw" req_get upstream_down).response.status = 503 ∧
     (proxy_handler "http://gw" req_get upstream_down).response.body =
       "Service unavailable" ∧
     ¬ (proxy_handler "http://gw" req_get upstream_down).response.body = "" ∧
     ("Error forwarding request: " ++ "connection refused") ∈
       (proxy_handler "http://gw" req_get upstream_down).logs) :=
  ⟨⟨by decide, by decide, rfl⟩,
    c5_transport_failure "http://gw" req_get upstream_down "connection refused"
      (by decide) (by decide) rfl⟩

/-- C7: every forwarded request issues exactly one outbound call, whose url
is the gateway url, a single slash, and the tail verbatim. -/
theorem c7_target_url (g : String) (req : InboundRequest)
    (upstream : OutboundCall → UpstreamOutcome)
    (hm : ¬ req.method = "OPTIONS") (ht : ¬ req.tail = "") :
    (proxy_handler g req upstream).calls = [outbound_call g req] ∧
    (outbound_call g req).url = g ++ "/" ++ req.tail := by
  refine ⟨?_, rfl⟩
  cases hu : upstream (outbound_call g req) <;>
    simp [proxy_handler, ht, hm, hu]

/-- Witness for c7_target_url at a concrete GET. -/
theorem c7_target_url_witness :
    (¬ req_get.method = "OPTIONS" ∧ ¬ req_get.tail = "") ∧
    ((proxy_handler "http://gw" req_get upstream_ok_sample).calls =
       [outbound_call "http://gw" req_get] ∧
     (outbound_call "http://gw" req_get).url =
       "http://gw" ++ "/" ++ req_get.tail) :=
  ⟨⟨by decide, by decide⟩,
    c7_target_url "http://gw" req_get upstream_ok_sample
      (by decide) (by decide)⟩

/-- C8: port resolution is a total function following the fallback chain:
PORT when set, else SERVER_PORT when set, else the hard default 8080. -/
theorem c8_port_resolution (p s : String) (o : Option String) :
    resolve_port (some p) o = p ∧
    resolve_port none (some s) = s ∧
    resolve_port none none = "8080" :=
  ⟨rfl, rfl, rfl⟩

/-- C9: for every request and every upstream outcome the handler produces
exactly one response, which is the root probe, the preflight, the relayed
upstream response, or the fixed 503 - never anything else. -/
theorem c9_always_responds (g : String) (req : InboundRequest)
    (upstream : OutboundCall → UpstreamOutcome) :
    (proxy_handler g req upstream).response = root_response ∨
    (proxy_handler g req upstream).response = preflight_response ∨
    (∃ resp, upstream (outbound_call g req) = UpstreamOutcome.ok resp ∧
      (proxy_handler g req upstream).response = success_response resp) ∨
    (∃ e, upstream (outbound_call g req) = UpstreamOutcome.err e ∧
      (proxy_handler g req upstream).response =
        service_unavailable_response) := by
  by_cases ht : req.tail = ""
  · exact Or.inl (by simp [proxy_handler, ht])
  · by_cases hm : req.method = "OPTIONS"
    · exact Or.inr (Or.inl (by simp [proxy_handler, ht, hm]))
    · cases hu : upstream (outbound_call g req) with
      | ok resp =>
          exact Or.inr (Or.inr (Or.inl
            ⟨resp, rfl, by simp [proxy_handler, ht, hm, hu]⟩))
      | err e =>
          exact Or.inr (Or.inr (Or.inr
            ⟨e, rfl, by simp [proxy_handler, ht, hm, hu]⟩))

/-- C10: on the transport-failure path the response carries no headers at
all (in particular no CORS headers) and its body is exactly the text
Service unavailable. -/
theorem c10_error_path_shape (g : String) (req : InboundRequest)
    (upstream : OutboundCall → UpstreamOutcome) (e : String)
    (hm : ¬ req.method = "OPTIONS") (ht : ¬ req.tail = "")
    (hu : upstream (outbound_call g req) = UpstreamOutcome.err e) :
    (proxy_handler g req upstream).response.headers = [] ∧
    (proxy_handler g req upstream).response.body = "Service unavailable" := by
  refine ⟨?_, ?_⟩ <;>
    simp [proxy_handler, ht, hm, hu, service_unavailable_response]

/-- Witness for c10_error_path_shape at a concrete POST with the upstream
down. -/
theorem c10_error_path_shape_witness :
    (¬ req_post.method = "OPTIONS" ∧ ¬ req_post.tail = "" ∧
     upstream_down (outbound_call "http://gw" req_post) =
       UpstreamOutcome.err "connection refused") ∧
    ((proxy_handler "http://gw" req_post upstream_down).response.headers = [] ∧
     (proxy_handler "http://gw" req_post upstream_down).response.body =
       "Service unavailable") :=
  ⟨⟨by decide, by decide, rfl⟩,
    c10_error_path_shape "http://gw" req_post upstream_down
      "connection refused" (by decide) (by decide) rfl⟩

/-- countName distributes over append. -/
theorem countName_append (l1 l2 : List (String × String)) (n : String) :
    countName (l1 ++ l2) n = countName l1 n + countName l2 n := by
  induction l1 with
  | nil => simp [countName]
  | cons p t ih => simp [countName, ih, Nat.add_assoc]


/-- Filtering away one name zeroes its count and leaves other counts
unchanged. -/
theorem countName_filter_ne (hs : List (String × String)) (m n : String) :
    countName (hs.filter (fun p => p.1 != m)) n =
      if n = m then 0 else countName hs n := by
  induction hs with
  | nil => simp [countName]
  | cons p t ih =>
      by_cases hpm : p.1 = m
      · rw [List.filter_cons_of_neg (by simp [hpm]), ih]
        by_cases hnm : n = m
        · simp [hnm]
        · have hpn : ¬ p.1 = n := fun hh => hnm (by rw [← hh, hpm])
          simp [countName, hnm, hpn]
      · rw [List.filter_cons_of_pos (by simp [hpm]), countName, countName, ih]
        by_cases hnm : n = m
        · have hpn : ¬ p.1 = n := fun hh => hpm (by rw [hh, hnm])
          simp [hnm, hpn, hpm]
        · simp [hnm]

/-- Count after an insert: the inserted name occurs exactly once, every
other name keeps its count. -/
theorem countName_insert (hs : List (String × String)) (h : String × String)
    (n : String) :
    countName (insert_header hs h) n =
      if n = h.1 then 1 else countName hs n := by
  rw [insert_header, countName_append, countName_filter_ne]
  by_cases hn : n = h.1
  · simp [countName, hn]
  · have hn2 : ¬ h.1 = n := fun h2 => hn h2.symm
    simp [countName, hn, hn2]

/-- Count after folding inserts of a whole header list: every name the list
mentions occurs exactly once, every other name keeps the count it had in
the initial collection. -/
theorem countName_foldl (H init : List (String × String)) (n : String) :
    countName (H.foldl insert_header init) n =
      if n ∈ headerNames H then 1 else countName init n := by
  induction H generalizing init with
  | nil => simp [headerNames]
  | cons p t ih =>
      rw [List.foldl_cons, ih]
      by_cases hmem : n ∈ headerNames t
      · rw [if_pos hmem, if_pos (show n ∈ headerNames (p :: t) by
          simp [headerNames] at hmem ⊢
          exact Or.inr hmem)]
      · rw [if_neg hmem, countName_insert]
        by_cases hp : n = p.1
        · rw [if_pos hp, if_pos (show n ∈ headerNames (p :: t) by
            simp [headerNames, hp])]
        · rw [if_neg hp, if_neg (show ¬ n ∈ headerNames (p :: t) by
            simp [headerNames] at hmem ⊢
            exact ⟨hp, hmem⟩)]

/-- lastValue over append takes the right list first. -/
theorem lastValue_append (l1 l2 : List (String × String)) (n : String) :
    lastValue (l1 ++ l2) n = (lastValue l2 n).or (lastValue l1 n) := by
  induction l1 with
  | nil => simp [lastValue, opt_or_none]
  | cons p t ih => simp [lastValue, ih, opt_or_assoc]

/-- Filtering away one name erases its last value and leaves other names
unchanged. -/
theorem lastValue_filter_ne (hs : List (String × String)) (m n : String) :
    lastValue (hs.filter (fun p => p.1 != m)) n =
      if n = m then none else lastValue hs n := by
  induction hs with
  | nil => simp [lastValue]
  | cons p t ih =>
      by_cases hpm : p.1 = m
      · rw [List.filter_cons_of_neg (by simp [hpm]), ih]
        by_cases hnm : n = m
        · simp [hnm]
        · have hpn : ¬ p.1 = n := fun hh => hnm (by rw [← hh, hpm])
          simp [lastValue, hnm, hpn, opt_or_none]
      · rw [List.filter_cons_of_pos (by simp [hpm])]
        simp only [lastValue]
        rw [ih]
        by_cases hnm : n = m
        · have hpn : ¬ p.1 = n := fun hh => hpm (by rw [hh, hnm])
          simp [hnm, hpn, hpm]
        · simp [hnm]

/-- Last value after an insert: the inserted name maps to the inserted
value, every other name keeps its last value. -/
theorem lastValue_insert (hs : List (String × String)) (h : String × String)
    (n : String) :
    lastValue (insert_header hs h) n =
      if n = h.1 then some h.2 else lastValue hs n := by
  rw [insert_header, lastValue_append, lastValue_filter_ne]
  have hsingle : lastValue [h] n = if n = h.1 then some h.2 else none := by
    simp only [lastValue]
    by_cases hn : n = h.1
    · rw [if_pos hn, if_pos hn.symm]
      rfl
    · rw [if_neg hn, if_neg (fun hh => hn hh.symm)]
      rfl
  rw [hsingle]
  by_cases hn : n = h.1
  · rw [if_pos hn, if_pos hn, if_pos hn]
    rfl
  · rw [if_neg hn, if_neg hn, if_neg hn]
    rfl

/-- Last value after folding inserts of a whole header list: the last value
named in the folded list when present, otherwise the value from the initial
collection. -/
theorem lastValue_foldl (H init : List (String × String)) (n : String) :
    lastValue (H.foldl insert_header init) n =
      (lastValue H n).or (lastValue init n) := by
  induction H generalizing init with
  | nil => simp [lastValue]
  | cons p t ih =>
      rw [List.foldl_cons, ih, lastValue_insert]
      simp only [lastValue]
      rw [opt_or_assoc]
      congr 1
      by_cases hp : n = p.1
      · rw [if_pos hp, if_pos hp.symm]
        rfl
      · rw [if_neg hp, if_neg (fun hh => hp hh.symm)]
        rfl

/-- C2: for every forwarded request whose outbound call succeeds with
status S, headers H and body B, the relayed response has status S verbatim,
body B, and the header set built by inserting the three CORS headers first
and then every upstream header with last-write-wins: each CORS name occurs
exactly once, every name the upstream emits keeps its last upstream value,
and a CORS name keeps its CORS value exactly when the upstream does not
emit it. -/
theorem c2_success_relay (g : String) (req : InboundRequest)
    (upstream : OutboundCall → UpstreamOutcome) (S : Nat)
    (H : List (String × String)) (B : String)
    (hm : ¬ req.method = "OPTIONS") (ht : ¬ req.tail = "")
    (hu : upstream (outbound_call g req) =
      UpstreamOutcome.ok { status := S, headers := H, body := some B }) :
    (proxy_handler g req upstream).response.status = S ∧
    (proxy_handler g req upstream).response.body = B ∧
    (proxy_handler g req upstream).response.headers = merge_headers H ∧
    (∀ n, n ∈ headerNames corsHeaders → countName (merge_headers H) n = 1) ∧
    (∀ n v, lastValue H n = some v → lastValue (merge_headers H) n = some v) ∧
    (∀ n, n ∈ headerNames corsHeaders → lastValue H n = none →
      lastValue (merge_headers H) n = lastValue corsHeaders n) := by
  refine ⟨?_, ?_, ?_, ?_, ?_, ?_⟩
  · simp [proxy_handler, ht, hm, hu, success_response]
  · simp [proxy_handler, ht, hm, hu, success_response]
  · simp [proxy_handler, ht, hm, hu, success_response]
  · intro n hn
    rw [merge_headers, countName_foldl]
    by_cases hmem : n ∈ headerNames H
    · rw [if_pos hmem]
    · rw [if_neg hmem]
      simp only [headerNames, corsHeaders, cors_allow_origin,
        cors_allow_methods, cors_allow_headers, List.map_cons, List.map_nil,
        List.mem_cons, List.not_mem_nil, or_false] at hn
      rcases hn with h1 | h1 | h1 <;> rw [h1] <;> decide
  · intro n v hv
    rw [merge_headers, lastValue_foldl, hv]
    rfl
  · intro n hn hnone
    rw [merge_headers, lastValue_foldl, hnone]
    simp only [headerNames, corsHeaders, cors_allow_origin,
      cors_allow_methods, cors_allow_headers, List.map_cons, List.map_nil,
      List.mem_cons, List.not_mem_nil, or_false] at hn
    rcases hn with h1 | h1 | h1 <;> rw [h1] <;> decide

/-- Witness for c2_success_relay at a concrete GET whose upstream answer
carries a duplicate of one CORS name. -/
theorem c2_success_relay_witness :
    (¬ req_get.method = "OPTIONS" ∧ ¬ req_get.tail = "" ∧
     upstream_ok_sample (outbound_call "http://gw" req_get) =
       UpstreamOutcome.ok
         { status := 201, headers := sample_upstream_headers,
           body := some "payload" }) ∧
    ((proxy_handler "http://gw" req_get upstream_ok_sample).response.status
        = 201 ∧
     (proxy_handler "http://gw" req_get upstream_ok_sample).response.body
        = "payload" ∧
     (proxy_handler "http://gw" req_get upstream_ok_sample).response.headers
        = merge_headers sample_upstream_headers ∧
     (∀ n, n ∈ headerNames corsHeaders →
       countName (merge_headers sample_upstream_headers) n = 1) ∧
     (∀ n v, lastValue sample_upstream_headers n = some v →
       lastValue (merge_headers sample_upstream_headers) n = some v) ∧
     (∀ n, n ∈ headerNames corsHeaders →
       lastValue sample_upstream_headers n = none →
       lastValue (merge_headers sample_upstream_headers) n =
         lastValue corsHeaders n)) :=
  ⟨⟨by decide, by decide, rfl⟩,
    c2_success_relay "http://gw" req_get upstream_ok_sample 201
      sample_upstream_headers "payload" (by decide) (by decide) rfl⟩

/-- C6: for every forwarded request whose upstream response headers arrived
but whose body read fails, the handler still relays the upstream status and
the merged headers, substituting an empty body. -/
theorem c6_body_read_failure (g : String) (req : InboundRequest)
    (upstream : OutboundCall → UpstreamOutcome) (S : Nat)
    (H : List (String × String))
    (hm : ¬ req.method = "OPTIONS") (ht : ¬ req.tail = "")
    (hu : upstream (outbound_call g req) =
      UpstreamOutcome.ok { status := S, headers := H, body := none }) :
    (proxy_handler g req upstream).response.status = S ∧
    (proxy_handler g req upstream).response.headers = merge_headers H ∧
    (proxy_handler g req upstream).response.body = "" := by
  refine ⟨?_, ?_, ?_⟩ <;> simp [proxy_handler, ht, hm, hu, success_response]

/-- Witness for c6_body_read_failure at a concrete GET whose upstream body
read fails. -/
theorem c6_body_read_failure_witness :
    (¬ req_get.method = "OPTIONS" ∧ ¬ req_get.tail = "" ∧
     upstream_ok_nobody (outbound_call "http://gw" req_get) =
       UpstreamOutcome.ok
         { status := 502, headers := [("x-upstream", "b")],
           body := none }) ∧
    ((proxy_handler "http://gw" req_get upstream_ok_nobody).response.status
        = 502 ∧
     (proxy_handler "http://gw" req_get upstream_ok_nobody).response.headers
        = merge_headers [("x-upstream", "b")] ∧
     (proxy_handler "http://gw" req_get upstream_ok_nobody).response.body
        = "") :=
  ⟨⟨by decide, by decide, rfl⟩,
    c6_body_read_failure "http://gw" req_get upstream_ok_nobody 502
      [("x-upstream", "b")] (by decide) (by decide) rfl⟩
